import Mathlib

/-!
Shallow embedding of the slackfm repository for verification.

The embedding follows the source files:
  * `src/lib/src/lastfm.rs` — the Last.fm client: track parsing and the
    now-playing change-detection stream.
  * `src/src/db.rs` — the encrypted credential store (`Db`, `UserData`).
  * `src/src/main.rs` — the axum handlers (`connect`, `disconnect`, `oauth`),
    the per-user task bookkeeping (`AppState.tasks`), and the sync worker
    `update_user_data`.

External crates are modelled at their API boundary:
  * `age` passphrase encryption is modelled symbolically: a blob records the
    passphrase it was encrypted under and its plaintext; decryption succeeds
    exactly when the passphrases match (as scrypt-passphrase age decryption
    does, up to negligible probability).
  * `serde_json` round-tripping of the store map is modelled by a `Plaintext`
    sum: a well-formed JSON document carrying the record list, or a malformed
    document that fails to deserialize.
  * `async-stream`'s `try_stream!` macro: a `?` on an `Err` inside the block
    yields the error as the stream's final item and then completes the
    stream (the macro's documented error-propagation semantics).
  * `tokio`: dropping an `AbortHandle` does not abort its task; only an
    explicit `.abort()` call requests cancellation.
  * File I/O: the on-disk file is a `World` value holding the optional blob,
    plus a flag saying whether writes fail (modelling the persist-failure
    branch of `to_encrypted_file`).

The polling loop of `stream_now_playing` is embedded by feeding the stream a
finite list of per-tick fetch outcomes (the results of
`get_user_recent_tracks`, one per poll tick) and collecting the items the
stream yields.
-/

namespace Slackfm

/-! ### `src/lib/src/lastfm.rs`: errors and track data -/

/-- The error type of the Last.fm client (`enum LastFMError`). -/
inductive LastFMError where
  | RequestError
  | ParseError
deriving DecidableEq, Repr

/-- Image sizes of the `user.getrecenttracks` response (`enum ImageSize`). -/
inductive ImageSize where
  | Small
  | Medium
  | Large
  | ExtraLarge
deriving DecidableEq, Repr

/-- One entry of a track's `image` array (`struct Image`); URLs are kept as
strings. -/
structure Image where
  size : ImageSize
  url : String
deriving DecidableEq, Repr

/-- The `artist` object of a raw track (`struct Artist`). -/
structure Artist where
  text : String
deriving DecidableEq, Repr

/-- The `album` object of a raw track (`struct Album`). -/
structure Album where
  text : String
deriving DecidableEq, Repr

/-- The optional `@attr` object of a raw track (`struct TrackAttributes`),
whose optional `nowplaying` field is a string. -/
structure TrackAttributes where
  now_playing : Option String
deriving DecidableEq, Repr

/-- A raw track of the `user.getrecenttracks` response (`struct Track`). -/
structure Track where
  name : String
  mbid : String
  artist : Artist
  image : List Image
  album : Album
  attr : Option TrackAttributes
deriving DecidableEq, Repr

/-- The parsed track (`struct RecentTrack` in `lastfm.rs`). -/
structure RecentTrack where
  mbid : String
  name : String
  artist : String
  album : String
  image_url : String
  is_now_playing : Bool
deriving DecidableEq, Repr

/-- The placeholder image URL used when no medium-size image is present. -/
def placeholderImageUrl : String := "https://via.placeholder.com/64"

/-- `impl From<Track> for RecentTrack` (`lastfm.rs` lines 270-290):
`is_now_playing` is `track.attr.map_or(false, |attr|
attr.now_playing.unwrap_or("false") == "true")`, and the image URL is the
medium-size image's URL, defaulting to the placeholder. -/
def recentTrackFromTrack (track : Track) : RecentTrack :=
  { name := track.name
    mbid := track.mbid
    artist := track.artist.text
    album := track.album.text
    image_url :=
      (((track.image.find? (fun image => image.size == ImageSize.Medium)).map
        (fun image => image.url)).getD placeholderImageUrl)
    is_now_playing :=
      ((track.attr.map (fun attr =>
        (attr.now_playing.getD "false") == "true")).getD false) }

/-! ### The change-detection comparison step and stream
(`Client::stream_now_playing`, `lastfm.rs` lines 117-173) -/

/-- The per-tick comparison of `stream_now_playing` (the `match (now_playing,
last_playing.clone())` block, `lastfm.rs` lines 137-168). Returns the event
yielded this tick (`none` when nothing is yielded; `some ev` when `yield ev`
runs) together with the updated `last_playing` state. -/
def compare_now_playing (now_playing last_playing : Option RecentTrack) :
    Option (Option RecentTrack) × Option RecentTrack :=
  match now_playing, last_playing with
  | none, none => (none, none)
  | some playing, none => (some (some playing), some playing)
  | none, some _ => (some none, none)
  | some playing, some last =>
    if playing.mbid ≠ "" then
      if playing.mbid ≠ last.mbid then (some (some playing), some playing)
      else (none, some last)
    else if playing.name ≠ last.name then (some (some playing), some playing)
    else (none, some last)

/-- The stream body of `Client::stream_now_playing`, driven by a finite list
of per-tick fetch outcomes. Each tick: on a fetch/decode error the
`try_stream!` block's `?` yields `Err(e)` and completes the stream; on
success, `now_playing` is the first fetched track flagged as now playing and
the comparison step decides whether to yield. -/
def stream_now_playing :
    Option RecentTrack → List (Except LastFMError (List RecentTrack)) →
      List (Except LastFMError (Option RecentTrack))
  | _, [] => []
  | _, Except.error e :: _ => [Except.error e]
  | last_playing, Except.ok tracks :: rest =>
    let now_playing := tracks.find? (fun track => track.is_now_playing)
    match compare_now_playing now_playing last_playing with
    | (none, next_last) => stream_now_playing next_last rest
    | (some ev, next_last) => Except.ok ev :: stream_now_playing next_last rest

/-! ### `src/src/db.rs`: `UserData` and the encrypted store -/

/-- `enum SlackToken` (`db.rs` lines 21-26): either an OAuth access token or
the CSRF token of a pending authorization; `CsrfToken` is carried as its
secret string. -/
inductive SlackToken where
  | Oauth (token : String)
  | Csrf (token : String)
deriving DecidableEq, Repr

/-- `struct UserData` (`db.rs` lines 15-19). -/
structure UserData where
  lastfm_username : String
  slack_token : SlackToken
deriving DecidableEq, Repr

namespace UserData

/-- `UserData::new` (`db.rs` lines 29-34): a fresh record is pending with the
given CSRF token. -/
def new (lastfm_username : String) (csrf : String) : UserData :=
  { lastfm_username := lastfm_username, slack_token := SlackToken.Csrf csrf }

/-- `UserData::update_lastfm_username` (`db.rs` lines 36-38). -/
def update_lastfm_username (u : UserData) (lastfm_username : String) : UserData :=
  { u with lastfm_username := lastfm_username }

/-- `UserData::slack_token()` (`db.rs` lines 40-45); named with a `?` to avoid
clashing with the field of the same name. -/
def slack_token? (u : UserData) : Option String :=
  match u.slack_token with
  | SlackToken.Oauth token => some token
  | _ => none

/-- `UserData::csrf_token()` (`db.rs` lines 47-52), as the secret string. -/
def csrf_token (u : UserData) : Option String :=
  match u.slack_token with
  | SlackToken.Csrf token => some token
  | _ => none

/-- `UserData::promote_token` (`db.rs` lines 58-60). -/
def promote_token (u : UserData) (token : String) : UserData :=
  { u with slack_token := SlackToken.Oauth token }

end UserData

/-- `enum DbError` (`db.rs` lines 69-74). -/
inductive DbError where
  | EncryptionError
  | IoError
  | SerdeError
deriving DecidableEq, Repr

/-- The plaintext inside an encrypted store file: either a well-formed JSON
document carrying the record map, or a malformed document on which
`serde_json::from_reader` fails (`serde_json` modelled at its boundary). -/
inductive Plaintext where
  | json (records : List (String × UserData))
  | malformed (raw : String)
deriving DecidableEq, Repr

/-- An `age`-encrypted blob, modelled at the `age` crate's boundary: it
remembers the passphrase it was encrypted under and its plaintext;
decryption succeeds exactly for the matching passphrase. -/
structure EncryptedBlob where
  passphrase : String
  plaintext : Plaintext
deriving DecidableEq, Repr

/-- `age::Decryptor::decrypt` at the boundary: wrong passphrase fails with an
encryption error, right passphrase recovers the plaintext. -/
def decrypt_blob (key : String) (blob : EncryptedBlob) : Except DbError Plaintext :=
  if key = blob.passphrase then Except.ok blob.plaintext
  else Except.error DbError.EncryptionError

/-- `serde_json::from_reader` on the decrypted plaintext. -/
def deserialize_records : Plaintext → Except DbError (List (String × UserData))
  | Plaintext.json records => Except.ok records
  | Plaintext.malformed _ => Except.error DbError.SerdeError

/-- `struct Db` (`db.rs` lines 63-67). The `HashMap<String, Arc<Mutex<UserData>>>`
is embedded as an association list from platform user id to record. -/
structure Db where
  db : List (String × UserData)
  location : String
  key : String
deriving DecidableEq, Repr

/-- The file system seen by the store: the optional on-disk blob at the
store's location, and whether writes currently fail (the failure branch of
`std::fs::write` / the encryptor in `to_encrypted_file`). -/
structure World where
  file : Option EncryptedBlob
  write_fails : Bool
deriving DecidableEq, Repr

/-- `HashMap::insert`: bind `username` to `data`, replacing any previous
binding for that key. -/
def insertRecord (records : List (String × UserData)) (username : String)
    (data : UserData) : List (String × UserData) :=
  records.filter (fun kv => kv.1 != username) ++ [(username, data)]

/-- `HashMap::remove`: drop the binding for `username`. -/
def removeRecord (records : List (String × UserData)) (username : String) :
    List (String × UserData) :=
  records.filter (fun kv => kv.1 != username)

/-- `HashMap::get` (cloned): the record bound to `username`, if any. -/
def lookupRecord (records : List (String × UserData)) (username : String) :
    Option UserData :=
  (records.find? (fun kv => kv.1 == username)).map (fun kv => kv.2)

namespace Db

/-- `Db::new` (`db.rs` lines 89-95). -/
def new (file_path : String) (key : String) : Db :=
  { db := [], location := file_path, key := key }

/-- The blob `Db::to_encrypted_file` produces on success: the record map
serialized to JSON and encrypted under the store's passphrase. -/
def encrypted_db (d : Db) : EncryptedBlob :=
  { passphrase := d.key, plaintext := Plaintext.json d.db }

/-- `Db::to_encrypted_file` (`db.rs` lines 154-181): serialize the whole map,
encrypt it, and replace the on-disk file; a failing write leaves the world
unchanged and reports an error. -/
def to_encrypted_file (d : Db) (w : World) : World × Except DbError Unit :=
  if w.write_fails then (w, Except.error DbError.IoError)
  else ({ w with file := some (encrypted_db d) }, Except.ok ())

/-- `Db::from_encrypted_file` (`db.rs` lines 116-151): an absent file yields a
fresh empty store; otherwise decrypt then deserialize, propagating either
failure. -/
def from_encrypted_file (file_path : String) (file : Option EncryptedBlob)
    (key : String) : Except DbError Db :=
  match file with
  | none => Except.ok (Db.new file_path key)
  | some blob =>
    match decrypt_blob key blob with
    | Except.error e => Except.error e
    | Except.ok plain =>
      match deserialize_records plain with
      | Except.error e => Except.error e
      | Except.ok records =>
        Except.ok { db := records, location := file_path, key := key }

/-- `Db::user` (`db.rs` lines 183-185). -/
def user (d : Db) (username : String) : Option UserData :=
  lookupRecord d.db username

/-- `Db::add_user` (`db.rs` lines 191-194): insert into the in-memory map,
then persist; the persist outcome is returned as-is and the insertion is not
rolled back. -/
def add_user (d : Db) (w : World) (username : String) (data : UserData) :
    Db × World × Except DbError Unit :=
  let d' : Db := { d with db := insertRecord d.db username data }
  let persisted := d'.to_encrypted_file w
  (d', persisted.1, persisted.2)

/-- `Db::remove_user` (`db.rs` lines 196-200): remove from the in-memory map,
then persist; a persist failure is returned via `?` with the removal already
applied, success returns the removed record. -/
def remove_user (d : Db) (w : World) (username : String) :
    Db × World × Except DbError (Option UserData) :=
  let removed := lookupRecord d.db username
  let d' : Db := { d with db := removeRecord d.db username }
  let persisted := d'.to_encrypted_file w
  match persisted.2 with
  | Except.error e => (d', persisted.1, Except.error e)
  | Except.ok _ => (d', persisted.1, Except.ok removed)

/-- `Db::user_with_csrf` (`db.rs` lines 202-210): the first record whose CSRF
token matches `state`. -/
def user_with_csrf (d : Db) (state : String) : Option UserData :=
  (d.db.find? (fun kv => kv.2.csrf_token == some state)).map (fun kv => kv.2)

end Db

/-! ### `src/src/main.rs`: sync worker and task bookkeeping -/

/-- The outward-visible actions of the sync worker loop in `update_user_data`
(`main.rs` lines 417-449): a Slack status update (`update_user_status` with
the given text and emoji) or a logged stream error. -/
inductive WorkerAction where
  | setStatus (text emoji : String)
  | logStreamError (e : LastFMError)
deriving DecidableEq, Repr

/-- One iteration of the worker's `while let` loop: a `Changed(Some(track))`
event sets the status to `"<name> - <artist>"` with the music emoji, a
`Changed(None)` event clears the status, and an error is logged. -/
def event_action : Except LastFMError (Option RecentTrack) → WorkerAction
  | Except.ok (some track) =>
    WorkerAction.setStatus (track.name ++ " - " ++ track.artist) ":music:"
  | Except.ok none => WorkerAction.setStatus "" ""
  | Except.error e => WorkerAction.logStreamError e

/-- The credential snapshot `update_user_data` takes before its loop
(`main.rs` lines 394-399): owned copies of the tracked username and of the
optional Slack token, read from the shared record once. -/
def captured_credentials (user_data : UserData) : String × Option String :=
  (user_data.lastfm_username, user_data.slack_token?)

/-- The observable outcome of one run of the worker: which username its
stream polls (none when the worker exits before polling), and the actions
its loop performs. -/
structure WorkerRun where
  polled_username : Option String
  actions : List WorkerAction
deriving DecidableEq, Repr

/-- `update_user_data` (`main.rs` lines 388-450) driven by the per-tick fetch
outcomes: capture the credentials once; without a Slack token return
immediately without polling; otherwise consume `stream_now_playing` (fresh
`last_playing = None`) on the captured username, performing one action per
yielded item until the stream completes. -/
def update_user_data (user_data : UserData)
    (fetches : List (Except LastFMError (List RecentTrack))) : WorkerRun :=
  let creds := captured_credentials user_data
  match creds.2 with
  | none => { polled_username := none, actions := [] }
  | some _ =>
    { polled_username := some creds.1
      actions := (stream_now_playing none fetches).map event_action }

/-! ### Task supervisor state (`AppState.tasks` and the spawn sites) -/

/-- One tokio task spawned for a user's worker: its id (the `AbortHandle`'s
task), its owner, and whether `.abort()` has been requested on it. -/
structure TaskRecord where
  task_id : Nat
  user : String
  abort_requested : Bool
deriving DecidableEq, Repr

/-- The supervisor bookkeeping: the `HashMap<SlackUserId, AbortHandle>`
(`AppState.tasks`) as an association list from user id to task id, the
history of spawned tasks with their abort flags, and the next fresh task
id. -/
structure Supervisor where
  tasks : List (String × Nat)
  spawned : List TaskRecord
  next_id : Nat
deriving DecidableEq, Repr

/-- `HashMap::insert` on the tasks map: replace any previous handle for the
user with the new one; the replaced `AbortHandle` is dropped, which does not
abort its task. -/
def insertHandle (tasks : List (String × Nat)) (user : String) (handle : Nat) :
    List (String × Nat) :=
  tasks.filter (fun kv => kv.1 != user) ++ [(user, handle)]

/-- `HashMap::remove` on the tasks map: the removed handle, if any, and the
remaining map. -/
def removeHandle (tasks : List (String × Nat)) (user : String) :
    Option Nat × List (String × Nat) :=
  ((tasks.find? (fun kv => kv.1 == user)).map (fun kv => kv.2),
    tasks.filter (fun kv => kv.1 != user))

/-- The spawn sites (`oauth_handler`, `main.rs` lines 238-246, and
`spawn_initial_updaters`, lines 370-382): `tokio::task::spawn` a new worker
task, take its `abort_handle()`, and `insert` it into the tasks map. No
abort is requested on any existing task. -/
def spawn_updater (s : Supervisor) (user : String) : Supervisor :=
  { tasks := insertHandle s.tasks user s.next_id
    spawned := s.spawned ++ [{ task_id := s.next_id, user := user, abort_requested := false }]
    next_id := s.next_id + 1 }

/-- `AbortHandle::abort` on the handle with the given task id. -/
def request_abort (s : Supervisor) (handle : Nat) : Supervisor :=
  { s with
    spawned := s.spawned.map (fun r =>
      if r.task_id == handle then { r with abort_requested := true } else r) }

/-- The live tasks of a user: spawned, owned by the user, abort not yet
requested. -/
def live_count (s : Supervisor) (user : String) : Nat :=
  (s.spawned.filter (fun r => r.user == user && !r.abort_requested)).length

/-- Number of handles the tasks map holds for a user. -/
def handle_count (tasks : List (String × Nat)) (user : String) : Nat :=
  (tasks.filter (fun kv => kv.1 == user)).length

/-- A Rust panic observable in a handler (`Option::unwrap` on `None`). -/
inductive PanicKind where
  | unwrapNone
deriving DecidableEq, Repr

/-- The application state a handler sees: the store behind its lock, the file
world, and the task bookkeeping. -/
structure AppState where
  db : Db
  world : World
  sup : Supervisor
deriving DecidableEq, Repr

/-- `disconnect_handler` (`main.rs` lines 101-135): remove the user from the
store; if a record was removed, `tasks.remove(&user_id).unwrap()` and abort
the handle — the `unwrap` panics when the map has no handle for the user; if
no record was removed, or the removal's persist failed, reply with the
corresponding message without touching the tasks map. -/
def disconnect_handler (st : AppState) (user : String) :
    Except PanicKind (AppState × String) :=
  match st.db.remove_user st.world user with
  | (d', w', Except.ok (some _)) =>
    match removeHandle st.sup.tasks user with
    | (none, _) => Except.error PanicKind.unwrapNone
    | (some handle, tasks') =>
      Except.ok
        ({ db := d', world := w'
           sup := request_abort { st.sup with tasks := tasks' } handle },
          "Disconnected lastfm user")
  | (d', w', Except.ok none) =>
    Except.ok ({ st with db := d', world := w' },
      "You were not found in the database!. Please run /connect")
  | (d', w', Except.error _) =>
    Except.ok ({ st with db := d', world := w' },
      "Error disconnecting your user. A report has been logged on the server")

/-! ### Record-level mutation operations

The two `&mut self` methods of `UserData` (`update_lastfm_username` and
`promote_token`) are the only in-place mutations a stored record can
undergo; sequences of them model everything the handlers can do to a record
after it is obtained from the store. -/

/-- One record-level mutation of a stored `UserData`. -/
inductive RecordOp where
  | updateUsername (name : String)
  | promote (token : String)
deriving DecidableEq, Repr

/-- Apply one record-level mutation. -/
def apply_record_op (u : UserData) : RecordOp → UserData
  | RecordOp.updateUsername name => u.update_lastfm_username name
  | RecordOp.promote token => u.promote_token token

/-- Apply a sequence of record-level mutations, oldest first. -/
def apply_record_ops : UserData → List RecordOp → UserData
  | u, [] => u
  | u, op :: rest => apply_record_ops (apply_record_op u op) rest

/-! ### Sample data used by concrete witnesses and counterexamples -/

/-- A sample parsed track flagged as now playing. -/
def sampleTrack : RecentTrack :=
  { mbid := "mbid-1", name := "Song1", artist := "X", album := "A"
    image_url := placeholderImageUrl, is_now_playing := true }

/-- A second sample track with a different mbid and title. -/
def sampleTrack2 : RecentTrack :=
  { mbid := "mbid-2", name := "Song2", artist := "X", album := "A"
    image_url := placeholderImageUrl, is_now_playing := true }

/-! ### Association-list helper lemmas -/

/-- Filtering for a key after filtering it away yields nothing. -/
theorem filter_key_filter_ne {α : Type} (l : List (String × α)) (u : String) :
    (l.filter (fun kv => kv.1 != u)).filter (fun kv => kv.1 == u) = [] := by
  induction l with
  | nil => rfl
  | cons kv t ih =>
    by_cases h : kv.1 = u <;> simp [List.filter_cons, h, ih]

/-- Searching for a key after filtering it away finds nothing. -/
theorem find?_key_filter_ne {α : Type} (l : List (String × α)) (u : String) :
    (l.filter (fun kv => kv.1 != u)).find? (fun kv => kv.1 == u) = none := by
  rw [List.find?_eq_none]
  intro x hx
  rcases List.mem_filter.mp hx with ⟨-, hne⟩
  simpa using bne_iff_ne.mp hne

/-- Insert-then-find: replacing a key's binding and searching for the key
finds exactly the new binding. -/
theorem find?_key_insert {α : Type} (l : List (String × α)) (u : String) (d : α) :
    ((l.filter (fun kv => kv.1 != u)) ++ [(u, d)]).find? (fun kv => kv.1 == u) =
      some (u, d) := by
  induction l with
  | nil => simp [List.find?]
  | cons kv t ih =>
    by_cases h : kv.1 = u
    · simp [List.filter_cons, h, ih]
    · simp [List.filter_cons, h, List.find?, ih]

/-! ### Theorems for the claims -/

/-- Claim C5: the absence transitions of the comparison step, and dedup
idempotence. With nothing playing and nothing retained, no event; a first
track emits `Changed(Some(current))` and retains it; stopping emits
`Changed(None)` and clears the retained snapshot; feeding the identical
current again after it was emitted yields no second event and leaves the
retained snapshot unchanged. -/
theorem C5_compare_absence_transitions (x : RecentTrack) :
    compare_now_playing none none = (none, none) ∧
    compare_now_playing (some x) none = (some (some x), some x) ∧
    compare_now_playing none (some x) = (some none, none) ∧
    compare_now_playing (some x) (some x) = (none, some x) := by
  refine ⟨rfl, rfl, rfl, ?_⟩
  by_cases h : x.mbid = "" <;> simp [compare_now_playing, h]

/-- Claim C6: with both snapshots present, an event fires exactly when the
mbids differ if the current track's mbid is non-empty, and exactly when the
titles differ if it is empty; and when an event fires it carries the current
track, which becomes the retained snapshot. -/
theorem C6_compare_trackid_precedence (c l : RecentTrack) :
    ((compare_now_playing (some c) (some l)).1.isSome =
      if c.mbid ≠ "" then c.mbid != l.mbid else c.name != l.name) ∧
    ((compare_now_playing (some c) (some l)).1.isSome = true →
      compare_now_playing (some c) (some l) = (some (some c), some c)) := by
  simp only [compare_now_playing]
  split_ifs <;> simp_all [bne_iff_ne]

/-- Claim C6 witness: with a non-empty mbid differing from the retained one
and an identical title, an event fires and carries the current track. -/
theorem C6_compare_trackid_precedence_witness :
    compare_now_playing
        (some { sampleTrack2 with name := "Song1" }) (some sampleTrack) =
      (some (some { sampleTrack2 with name := "Song1" }), some { sampleTrack2 with name := "Song1" }) := by
  exact (C6_compare_trackid_precedence { sampleTrack2 with name := "Song1" } sampleTrack).2
    (by decide)

/-- Claim C10: the parsed `is_now_playing` flag is true exactly when the raw
track's optional `@attr` object is present and its `nowplaying` field is
present and equal to the string `"true"`; a missing `@attr`, a missing
`nowplaying`, or any other string yields `false`. -/
theorem C10_now_playing_classification (t : Track) :
    (recentTrackFromTrack t).is_now_playing = true ↔
      ∃ a, t.attr = some a ∧ a.now_playing = some "true" := by
  cases h : t.attr with
  | none => simp [recentTrackFromTrack, h]
  | some a =>
    cases hn : a.now_playing with
    | none => simp [recentTrackFromTrack, h, hn]
    | some s => simp [recentTrackFromTrack, h, hn, beq_iff_eq]

/-- Claim C1 counterexample: a fetch failure on the first tick does not
leave the stream producing further events — with a successful second tick
whose fetch reports a playing track, the stream still ends at the error,
although that same successful tick alone would have produced a
`Changed(Some(track))` event. -/
theorem C1_error_terminates_stream_counterexample :
    stream_now_playing none
        [Except.error LastFMError.RequestError, Except.ok [sampleTrack]] =
      [Except.error LastFMError.RequestError] ∧
    stream_now_playing none [Except.ok [sampleTrack]] =
      [Except.ok (some sampleTrack)] ∧
    (stream_now_playing none
        [Except.error LastFMError.RequestError, Except.ok [sampleTrack]]).length = 1 := by
  refine ⟨rfl, ?_, rfl⟩
  show stream_now_playing none [Except.ok [sampleTrack]] = [Except.ok (some sampleTrack)]
  rfl

/-- Claim C1 (amended): on a fetch or decode failure the stream yields the
`Error` event and then completes — no later tick is polled — and a worker
whose first tick fails performs exactly the one logging action and its loop
exits, whatever fetch outcomes would have followed. -/
theorem C1_error_ends_stream_and_worker (name tok : String) (e : LastFMError)
    (rest : List (Except LastFMError (List RecentTrack)))
    (last : Option RecentTrack) :
    stream_now_playing last (Except.error e :: rest) = [Except.error e] ∧
    (update_user_data
        { lastfm_username := name, slack_token := SlackToken.Oauth tok }
        (Except.error e :: rest)).actions =
      [WorkerAction.logStreamError e] := by
  constructor
  · cases last <;> rfl
  · rfl

/-- Claim C2 counterexample: starting from an empty supervisor, spawning
twice for the same user leaves two live tasks for that user, and neither
task — in particular not the first — ever had its cancellation requested. -/
theorem C2_double_spawn_counterexample :
    live_count (spawn_updater (spawn_updater
        { tasks := [], spawned := [], next_id := 0 } "U1") "U1") "U1" = 2 ∧
    ((spawn_updater (spawn_updater
        { tasks := [], spawned := [], next_id := 0 } "U1") "U1").spawned.map
      TaskRecord.abort_requested) = [false, false] := by
  exact ⟨rfl, rfl⟩

/-- Claim C2 (amended): spawning for a user replaces that user's entry in
the tasks map — exactly one handle is tracked afterwards — but no
cancellation is requested on any existing task: the spawn history grows by
one live task with all previous tasks' abort flags untouched, so the live
task count for the user increases by one. -/
theorem C2_spawn_replaces_handle_without_cancel (s : Supervisor) (user : String) :
    handle_count (spawn_updater s user).tasks user = 1 ∧
    (spawn_updater s user).spawned =
      s.spawned ++ [{ task_id := s.next_id, user := user, abort_requested := false }] ∧
    live_count (spawn_updater s user) user = live_count s user + 1 := by
  refine ⟨?_, rfl, ?_⟩
  · simp [handle_count, spawn_updater, insertHandle, List.filter_append,
      filter_key_filter_ne]
  · simp [live_count, spawn_updater, List.filter_append]

/-- Claim C3: disconnecting a user whose record is in the store but who has
no live task panics — `remove_user` succeeds, and the handler then calls
`.unwrap()` on `tasks.remove(&user_id)`, which is `None`. The concrete state
is reachable: a user who ran `/connect` (record added in the pending state,
no task spawned) and then `/disconnect`. -/
theorem C3_disconnect_pending_user_panics :
    disconnect_handler
      { db := { db := [("U1", UserData.new "alice" "csrf-1")]
                location := "db.json.enc", key := "secret" }
        world := { file := none, write_fails := false }
        sup := { tasks := [], spawned := [], next_id := 0 } } "U1" =
      Except.error PanicKind.unwrapNone := by
  rfl

/-- Claim C4 counterexample: a worker spawned while the shared record tracks
`"alice"` polls `"alice"`; updating the record's tracked username to `"bob"`
(as `connect_handler` does on the shared record) changes the record, yet the
worker's polled username is still `"alice"`, not `"bob"`. -/
theorem C4_update_not_observed_counterexample :
    (update_user_data
        { lastfm_username := "alice", slack_token := SlackToken.Oauth "xoxp-1" }
        [Except.ok []]).polled_username = some "alice" ∧
    (UserData.update_lastfm_username
        { lastfm_username := "alice", slack_token := SlackToken.Oauth "xoxp-1" }
        "bob").lastfm_username = "bob" ∧
    (some "alice" : Option String) ≠ some "bob" := by
  refine ⟨rfl, rfl, by decide⟩

/-- Claim C4 (amended): the worker copies the tracked username out of the
shared record once, before its loop; its stream polls exactly the username
the record held at spawn time, for the whole run, while an update through
the shared record changes the record itself. -/
theorem C4_username_captured_at_spawn (name tok newName : String)
    (fetches : List (Except LastFMError (List RecentTrack))) :
    (update_user_data
        { lastfm_username := name, slack_token := SlackToken.Oauth tok }
        fetches).polled_username = some name ∧
    (UserData.update_lastfm_username
        { lastfm_username := name, slack_token := SlackToken.Oauth tok }
        newName).lastfm_username = newName := by
  exact ⟨rfl, rfl⟩

/-- Claim C7: persisting the store and loading from the produced file with
the same passphrase reproduces the identical record set; loading the same
file with a wrong passphrase fails with a decryption error (never an empty
or partial store); only an absent file yields an empty store without
error. -/
theorem C7_store_roundtrip (d : Db) (w : World) (wrongKey path pass : String) :
    (w.write_fails = false →
      d.to_encrypted_file w =
        ({ w with file := some d.encrypted_db }, Except.ok ())) ∧
    Db.from_encrypted_file d.location (some d.encrypted_db) d.key =
      Except.ok d ∧
    (wrongKey ≠ d.key →
      Db.from_encrypted_file d.location (some d.encrypted_db) wrongKey =
        Except.error DbError.EncryptionError) ∧
    Db.from_encrypted_file path none pass = Except.ok (Db.new path pass) := by
  refine ⟨?_, ?_, ?_, rfl⟩
  · intro hw
    simp [Db.to_encrypted_file, hw]
  · simp [Db.from_encrypted_file, decrypt_blob, Db.encrypted_db,
      deserialize_records]
  · intro hk
    simp [Db.from_encrypted_file, decrypt_blob, Db.encrypted_db,
      deserialize_records, hk]

/-- Claim C7 witness: a one-record store round-trips under its passphrase
`"secret"` and fails to load under the wrong passphrase `"wrong"`. -/
theorem C7_store_roundtrip_witness :
    Db.from_encrypted_file "db.json.enc"
        (some (Db.encrypted_db
          { db := [("U1", UserData.new "alice" "csrf-1")]
            location := "db.json.enc", key := "secret" }))
        "secret" =
      Except.ok
        { db := [("U1", UserData.new "alice" "csrf-1")]
          location := "db.json.enc", key := "secret" } ∧
    Db.from_encrypted_file "db.json.enc"
        (some (Db.encrypted_db
          { db := [("U1", UserData.new "alice" "csrf-1")]
            location := "db.json.enc", key := "secret" }))
        "wrong" = Except.error DbError.EncryptionError := by
  exact ⟨(C7_store_roundtrip
      { db := [("U1", UserData.new "alice" "csrf-1")]
        location := "db.json.enc", key := "secret" }
      { file := none, write_fails := false } "wrong" "p" "q").2.1,
    (C7_store_roundtrip
      { db := [("U1", UserData.new "alice" "csrf-1")]
        location := "db.json.enc", key := "secret" }
      { file := none, write_fails := false } "wrong" "p" "q").2.2.1 (by decide)⟩

/-- Claim C8: once a record is promoted, its CSRF token is gone — after any
further sequence of record-level mutations its `csrf_token()` is still
`None` — and `user_with_csrf` only ever returns records whose CSRF token
equals the searched state; hence a promoted record is never returned by a
pending-token lookup again, for any token value. -/
theorem C8_promotion_monotone (u : UserData) (tok state : String)
    (ops : List RecordOp) (d : Db) :
    (apply_record_ops (u.promote_token tok) ops).csrf_token = none ∧
    (d.user_with_csrf state).all (fun r => r.csrf_token == some state) = true := by
  constructor
  · have key : ∀ (ops' : List RecordOp) (v : UserData), v.csrf_token = none →
        (apply_record_ops v ops').csrf_token = none := by
      intro ops'
      induction ops' with
      | nil => intro v hv; exact hv
      | cons op rest ih =>
        intro v hv
        cases op with
        | updateUsername name => exact ih _ hv
        | promote token => exact ih _ rfl
    exact key ops _ rfl
  · unfold Db.user_with_csrf
    cases hf : d.db.find? (fun kv => kv.2.csrf_token == some state) with
    | none => rfl
    | some kv => simpa using List.find?_some hf

/-- Claim C9: `add_user` and `remove_user` mutate the in-memory map first and
then persist: on success the on-disk file holds the encryption of the
mutated map; on persist failure the error is returned while the in-memory
mutation stays — the added record is still present, the removed record still
absent. -/
theorem C9_mutations_persist_no_rollback (d : Db) (w : World)
    (username : String) (data : UserData) :
    (d.add_user w username data).1.user username = some data ∧
    (d.remove_user w username).1.user username = none ∧
    (w.write_fails = false →
      (d.add_user w username data).2.2 = Except.ok () ∧
      (d.add_user w username data).2.1.file =
        some (d.add_user w username data).1.encrypted_db ∧
      (d.remove_user w username).2.2 = Except.ok (lookupRecord d.db username) ∧
      (d.remove_user w username).2.1.file =
        some (d.remove_user w username).1.encrypted_db) ∧
    (w.write_fails = true →
      (d.add_user w username data).2.2 = Except.error DbError.IoError ∧
      (d.remove_user w username).2.2 = Except.error DbError.IoError) := by
  refine ⟨?_, ?_, ?_, ?_⟩
  · simp [Db.add_user, Db.user, Db.to_encrypted_file, lookupRecord,
      insertRecord, find?_key_insert]
  · simp [Db.remove_user, Db.user, Db.to_encrypted_file, lookupRecord,
      removeRecord, find?_key_filter_ne]
    split <;> simp [lookupRecord, find?_key_filter_ne]
  · intro hw
    simp [Db.add_user, Db.remove_user, Db.to_encrypted_file, hw]
  · intro hw
    simp [Db.add_user, Db.remove_user, Db.to_encrypted_file, hw]

/-- Claim C9 witness: adding a record with a healthy file system persists and
keeps the record in memory; adding it with a failing file system returns the
error while the record is still in memory, and removal likewise leaves the
record absent in memory despite the returned error. -/
theorem C9_mutations_persist_no_rollback_witness :
    (Db.add_user { db := [], location := "db.json.enc", key := "secret" }
        { file := none, write_fails := false } "U1"
        (UserData.new "alice" "csrf-1")).2.2 = Except.ok () ∧
    (Db.add_user { db := [], location := "db.json.enc", key := "secret" }
        { file := none, write_fails := true } "U1"
        (UserData.new "alice" "csrf-1")).2.2 = Except.error DbError.IoError ∧
    (Db.add_user { db := [], location := "db.json.enc", key := "secret" }
        { file := none, write_fails := true } "U1"
        (UserData.new "alice" "csrf-1")).1.user "U1" =
      some (UserData.new "alice" "csrf-1") ∧
    (Db.remove_user
        { db := [("U1", UserData.new "alice" "csrf-1")]
          location := "db.json.enc", key := "secret" }
        { file := none, write_fails := true } "U1").1.user "U1" = none := by
  refine ⟨((C9_mutations_persist_no_rollback
      { db := [], location := "db.json.enc", key := "secret" }
      { file := none, write_fails := false } "U1"
      (UserData.new "alice" "csrf-1")).2.2.1 rfl).1,
    ((C9_mutations_persist_no_rollback
      { db := [], location := "db.json.enc", key := "secret" }
      { file := none, write_fails := true } "U1"
      (UserData.new "alice" "csrf-1")).2.2.2 rfl).1,
    (C9_mutations_persist_no_rollback
      { db := [], location := "db.json.enc", key := "secret" }
      { file := none, write_fails := true } "U1"
      (UserData.new "alice" "csrf-1")).1,
    (C9_mutations_persist_no_rollback
      { db := [("U1", UserData.new "alice" "csrf-1")]
        location := "db.json.enc", key := "secret" }
      { file := none, write_fails := true } "U1"
      (UserData.new "alice" "csrf-1")).2.1⟩

end Slackfm
